import Mathlib

/-!
Verification of the chezious-backend streaming chat pipeline against its
specification.  Definitions are shallow embeddings of the Python source
under `app/`; theorems settle the spec's claims about them.
-/

namespace Chezious

/-! ## SSE event stream (`app/api/v1/chat.py`) -/

/-- A stream event as emitted by the chat endpoint's `event_generator`:
`session_created`, `token`, `done`, `error` with their payloads. -/
inductive SSEEvent where
  | session_created (session_id : String)
  | token (text : String)
  | done (session_id : String)
  | error (message : String)
deriving DecidableEq, Repr

/-- The `try` body of `event_generator` in `chat.py`: yields `session_created`,
then one `token` event per token produced by `service.handle_chat`, then
`done`.  The chat service's behaviour is summarised by the list of tokens it
yields before either finishing normally (`exc = none`) or raising an
exception with message `msg` (`exc = some msg`); in the latter case the body
stops before the `done` yield and the exception propagates (second
component). -/
def tryBody (session_id : String) (tokens : List String) (exc : Option String) :
    List SSEEvent × Option String :=
  (SSEEvent.session_created session_id :: tokens.map SSEEvent.token ++
      (match exc with
       | none => [SSEEvent.done session_id]
       | some _ => []),
   exc)

/-- `event_generator` from `chat.py`: runs the `try` body; an exception
escaping it is caught by the `except Exception` handler, which yields a
single `error` event carrying the exception's message and returns normally.
The second component is the exception re-raised to the transport layer
(always `none`: the handler swallows it). -/
def event_generator (session_id : String) (tokens : List String)
    (exc : Option String) : List SSEEvent × Option String :=
  let r := tryBody session_id tokens exc
  match r.2 with
  | none => (r.1, none)
  | some msg => (r.1 ++ [SSEEvent.error msg], none)

/-! ## Startup database retry (`app/db/engine.py`) -/

/-- Outcome of a bounded-retry run: how many connection attempts were made,
the sleeps performed between attempts (each a duration in seconds), and
whether an attempt succeeded. -/
structure RetryResult where
  attempts : Nat
  sleeps : List Nat
  success : Bool
deriving DecidableEq, Repr

/-- The tenacity combinator `retry(stop=stop_after_attempt n, wait=wait_fixed
delay)`: `outcome i` tells whether the `i`-th attempt (0-based) succeeds.  A
failed attempt that is not the last is followed by one fixed-length sleep;
after the last failure the run stops with no further sleep. -/
def retryFixed (outcome : Nat → Bool) (delay : Nat) : Nat → Nat → RetryResult
  | _, 0 => ⟨0, [], false⟩
  | i, n + 1 =>
    if outcome i then ⟨1, [], true⟩
    else if n = 0 then ⟨1, [], false⟩
    else
      let r := retryFixed outcome delay (i + 1) n
      ⟨r.attempts + 1, delay :: r.sleeps, r.success⟩

/-- `verify_connection` from `engine.py`: the connection check wrapped in
`retry(stop=stop_after_attempt(5), wait=wait_fixed(2))`. -/
def verify_connection (outcome : Nat → Bool) : RetryResult :=
  retryFixed outcome 2 0 5

/-- The fatal startup failure raised by `init_db`'s `except` clause:
`RuntimeError(f"Database unavailable: ...")`. -/
inductive StartupFailure where
  | runtimeError (msg : String)
deriving DecidableEq, Repr

/-- `init_db` from `engine.py`: runs migrations, then `verify_connection`;
any exception from either is caught and re-raised as a fatal
`RuntimeError`, aborting startup. -/
def init_db (migrations : Except String Unit) (outcome : Nat → Bool) :
    Except StartupFailure Unit :=
  match migrations with
  | Except.error e => Except.error (StartupFailure.runtimeError ("Database unavailable: " ++ e))
  | Except.ok () =>
    if (verify_connection outcome).success then Except.ok ()
    else Except.error (StartupFailure.runtimeError "Database unavailable: connection retry exhausted")

/-! ## Data model and persistence store

The ORM model files (`app/models/user.py`, `app/models/session.py`) are not
under `src/`; their field lists and column defaults are modelled from the
spec's §3 data model (User: id, optional name/city, creation timestamp,
session count starting at 0; Session: id, owning user id, optional display
name and location, `active`/`deleted` status, message count starting at 0).
Timestamps are represented by naturals and new rows get timestamp 0; no
claim depends on clock values. -/

/-- A `User` row (§3: identity, optional display name/location, count of
sessions created). -/
structure User where
  user_id : String
  name : Option String
  city : Option String
  created_at : Nat
  session_count : Nat
deriving DecidableEq, Repr

/-- Session lifecycle status (§3: `active` or `deleted`). -/
inductive SessionStatus where
  | ACTIVE
  | DELETED
deriving DecidableEq, Repr

/-- A `ChatSession` row (§3: id, owning user id, display name, location,
status, message count, creation timestamp).  Session ids are modelled as
naturals standing in for UUIDs. -/
structure ChatSession where
  id : Nat
  user_id : String
  user_name : Option String
  location : Option String
  status : SessionStatus
  message_count : Nat
  created_at : Nat
deriving DecidableEq, Repr

/-- A persisted turn (§3 Turn/Message: belongs to one session, role,
content, creation timestamp). -/
structure Message where
  id : Nat
  session_id : Nat
  role : String
  content : String
  created_at : Nat
deriving DecidableEq, Repr

/-- The relational store visible to the services: user, session and message
tables. -/
structure DB where
  users : List User
  sessions : List ChatSession
  messages : List Message
deriving DecidableEq, Repr

/-- The service exception hierarchy (`app/core/exceptions.py`), restricted
to the exceptions the modelled operations raise. -/
inductive Exc where
  | userAlreadyExists (user_id : String)
  | userNotFound (user_id : String)
  | sessionNotFound (session_id : String)
deriving DecidableEq, Repr

/-- HTTP status code attached to each exception in `exceptions.py`
(`UserAlreadyExistsException` → 409, the not-found exceptions → 404). -/
def Exc.status_code : Exc → Nat
  | Exc.userAlreadyExists _ => 409
  | Exc.userNotFound _ => 404
  | Exc.sessionNotFound _ => 404

/-- Update the first element satisfying `p` with `f`, as SQLAlchemy does
when the single row fetched by primary key is mutated and flushed. -/
def modifyFirst (p : α → Bool) (f : α → α) : List α → List α
  | [] => []
  | x :: xs => if p x then f x :: xs else x :: modifyFirst p f xs

/-- Remove the first element satisfying `p` (a `db.delete` of the row
fetched by primary key). -/
def removeFirst (p : α → Bool) : List α → List α
  | [] => []
  | x :: xs => if p x then xs else x :: removeFirst p xs

/-- Python's `a or b` on optional strings: `None` and the empty string are
falsy, so both fall through to `b`. -/
def pyOrStr (a b : Option String) : Option String :=
  match a with
  | some s => if s = "" then b else some s
  | none => b

/-- Python truthiness of an optional string (`if x:`): `None` and `""` are
falsy. -/
def truthy : Option String → Bool
  | some s => decide (s ≠ "")
  | none => false

/-! ## `UserService` (`app/services/user_service.py`) -/

/-- `db.get(User, user_id)`: primary-key lookup returning the row if
present. -/
def dbGetUser (db : DB) (user_id : String) : Option User :=
  db.users.find? (fun u => u.user_id == user_id)

/-- `UserService._user_exists`: whether a row with this id occupies the
user table. -/
def user_exists (db : DB) (user_id : String) : Bool :=
  (db.users.find? (fun u => u.user_id == user_id)).isSome

/-- `UserService.create_user`: refuses (with the 409 exception) when the id
already exists, otherwise adds one new row with the given id, name and city
and the column defaults. -/
def create_user (db : DB) (user_id : String) (name city : Option String) :
    Except Exc User × DB :=
  if user_exists db user_id then
    (Except.error (Exc.userAlreadyExists user_id), db)
  else
    let u : User := ⟨user_id, name, city, 0, 0⟩
    (Except.ok u, ⟨db.users ++ [u], db.sessions, db.messages⟩)

/-- `UserService.get_user`: primary-key lookup raising the 404 exception
when missing. -/
def get_user (db : DB) (user_id : String) : Except Exc User × DB :=
  match dbGetUser db user_id with
  | some u => (Except.ok u, db)
  | none => (Except.error (Exc.userNotFound user_id), db)

/-- The field assignments of `UserService.update_user`: a field passed as
`None` is left alone, any other value (the empty string included) is
written. -/
def applyUserUpdate (u : User) (name city : Option String) : User :=
  { u with
    name := match name with
      | some s => some s
      | none => u.name,
    city := match city with
      | some s => some s
      | none => u.city }

/-- `UserService.update_user`: fetches the row (404 when missing), applies
the non-`None` field updates and flushes the mutated row back. -/
def update_user (db : DB) (user_id : String) (name city : Option String) :
    Except Exc User × DB :=
  match dbGetUser db user_id with
  | none => (Except.error (Exc.userNotFound user_id), db)
  | some u =>
    let u' := applyUserUpdate u name city
    (Except.ok u',
     ⟨modifyFirst (fun v => v.user_id == user_id) (fun _ => u') db.users,
      db.sessions, db.messages⟩)

/-- `UserService.get_or_create_user`: if the row exists, writes any
non-`None` fields that differ (the stored value ends up as in
`applyUserUpdate` either way) and returns it; otherwise creates the user. -/
def get_or_create_user (db : DB) (user_id : String) (name city : Option String) :
    Except Exc User × DB :=
  match dbGetUser db user_id with
  | some u =>
    let u' := applyUserUpdate u name city
    (Except.ok u',
     ⟨modifyFirst (fun v => v.user_id == user_id) (fun _ => u') db.users,
      db.sessions, db.messages⟩)
  | none => create_user db user_id name city

/-- `UserService.increment_session_count`: fetches the row (404 when
missing) and bumps its session count.  The `User.increment_session_count`
model method is not under `src/`; modelled from the spec (§3/§4.1: "count
of sessions created", incremented once per created session) as `+ 1`. -/
def increment_session_count (db : DB) (user_id : String) :
    Except Exc Unit × DB :=
  match dbGetUser db user_id with
  | none => (Except.error (Exc.userNotFound user_id), db)
  | some _ =>
    (Except.ok (),
     ⟨modifyFirst (fun v => v.user_id == user_id)
        (fun v => { v with session_count := v.session_count + 1 }) db.users,
      db.sessions, db.messages⟩)

/-! ## `SessionService` (`app/services/session_service.py`) -/

/-- A fresh session id, standing in for the model's `uuid4` column default
(the model file is not under `src/`): one more than the largest id in the
table, hence distinct from every existing id. -/
def fresh_session_id (db : DB) : Nat :=
  db.sessions.foldr (fun s acc => max acc (s.id + 1)) 0

/-- `SessionService.create_session`: ensures the user exists via
`get_or_create_user` (passing no profile data), computes display name and
location with Python `or` fallback to the user's profile, inserts the new
session row (given id, or a fresh one when absent) with the modelled column
defaults (`active`, message count 0), then increments the owner's session
count. -/
def create_session (db : DB) (user_id : String) (session_id : Option Nat)
    (user_name location : Option String) : Except Exc ChatSession × DB :=
  match get_or_create_user db user_id none none with
  | (Except.error e, db1) => (Except.error e, db1)
  | (Except.ok user, db1) =>
    let final_user_name := pyOrStr user_name user.name
    let final_location := pyOrStr location user.city
    let sid := match session_id with
      | some i => i
      | none => fresh_session_id db1
    let s : ChatSession :=
      ⟨sid, user_id, final_user_name, final_location, SessionStatus.ACTIVE, 0, 0⟩
    let db2 : DB := ⟨db1.users, db1.sessions ++ [s], db1.messages⟩
    match increment_session_count db2 user_id with
    | (Except.error e, db3) => (Except.error e, db3)
    | (Except.ok _, db3) => (Except.ok s, db3)

/-- `SessionService.get_session`: primary-key lookup raising
`SessionNotFoundException` when the row is absent. -/
def get_session (db : DB) (session_id : Nat) : Except Exc ChatSession × DB :=
  match db.sessions.find? (fun s => s.id == session_id) with
  | some s => (Except.ok s, db)
  | none => (Except.error (Exc.sessionNotFound (toString session_id)), db)

/-- `SessionService.delete_session`: fetches the session via `get_session`
(propagating its 404) and deletes the row.  The delete cascades to the
session's messages; the cascade is configured on the model file, which is
not under `src/`, and is modelled from the spec (§3: "deletion is terminal
and cascades to its turns"). -/
def delete_session (db : DB) (session_id : Nat) : Except Exc Unit × DB :=
  match (get_session db session_id).1 with
  | Except.error e => (Except.error e, db)
  | Except.ok _ =>
    (Except.ok (),
     ⟨db.users,
      removeFirst (fun s => s.id == session_id) db.sessions,
      db.messages.filter (fun m => !(m.session_id == session_id))⟩)

/-! ## Observables used by the claims -/

/-- Number of user rows carrying the given id. -/
def userRowCount (db : DB) (user_id : String) : Nat :=
  (db.users.filter (fun u => u.user_id == user_id)).length

/-- The session count stored on the user row with the given id, when
present. -/
def sessionCountOf (db : DB) (user_id : String) : Option Nat :=
  (dbGetUser db user_id).map (fun u => u.session_count)

/-! ## Context window (`app/services/chat_service.py`, spec §4.2) -/

/-- Modelled from the spec: the conversation-context assembly of §4.2
(`ContextWindowBuilder`, implemented in `app/services/chat_service.py`,
which is not under `src/`; only its caller `chat.py` is): the most recent
`w` persisted turns of the session, oldest first, followed by the new user
message. -/
def build_context (prior : List Message) (new_message : Message) (w : Nat) :
    List Message :=
  prior.drop (prior.length - w) ++ [new_message]

/-- The default of `Settings.context_window_size` in `app/core/config.py`. -/
def context_window_size_default : Nat := 10

/-! ## Logging context variables (`app/core/logging.py`) -/

/-- The three request-tracking context variables declared in `logging.py`:
`request_id_var`, `session_id_var`, `user_id_var`. -/
inductive CtxVar where
  | request
  | session
  | user
deriving DecidableEq, Repr

/-- The values currently held by the three context variables. -/
structure LogState where
  request_id : Option String
  session_id : Option String
  user_id : Option String
deriving DecidableEq, Repr

/-- A `contextvars` token: which variable was set and the value it held at
the time of the `set`. -/
structure CtxToken where
  var : CtxVar
  old : Option String
deriving DecidableEq, Repr

/-- Read one context variable. -/
def getVar (s : LogState) : CtxVar → Option String
  | CtxVar.request => s.request_id
  | CtxVar.session => s.session_id
  | CtxVar.user => s.user_id

/-- Write one context variable. -/
def writeVar (s : LogState) : CtxVar → Option String → LogState
  | CtxVar.request, x => { s with request_id := x }
  | CtxVar.session, x => { s with session_id := x }
  | CtxVar.user, x => { s with user_id := x }

/-- `ContextVar.set`: writes the value and returns a token recording the
previous one. -/
def setVar (s : LogState) (v : CtxVar) (x : Option String) :
    LogState × CtxToken :=
  (writeVar s v x, ⟨v, getVar s v⟩)

/-- `token.var.reset(token)`: restores the value recorded in the token. -/
def resetVar (s : LogState) (t : CtxToken) : LogState :=
  writeVar s t.var t.old

/-- `LogContext.__enter__`: sets each variable whose constructor argument is
truthy (`if self.request_id:` — `None` and `""` are falsy), appending each
returned token to `self._tokens` in order. -/
def logContextEnter (s0 : LogState)
    (request_id session_id user_id : Option String) :
    LogState × List CtxToken :=
  let p1 :=
    if truthy request_id then
      let r := setVar s0 CtxVar.request request_id
      (r.1, [r.2])
    else (s0, ([] : List CtxToken))
  let p2 :=
    if truthy session_id then
      let r := setVar p1.1 CtxVar.session session_id
      (r.1, p1.2 ++ [r.2])
    else p1
  let p3 :=
    if truthy user_id then
      let r := setVar p2.1 CtxVar.user user_id
      (r.1, p2.2 ++ [r.2])
    else p2
  p3

/-- `LogContext.__exit__(*args)`: resets the collected tokens in reverse
order.  The exception information passed on an exceptional exit is bound to
`*args` and ignored, so every exit path runs the same resets. -/
def logContextExit (s : LogState) (tokens : List CtxToken)
    (_exc_info : Option String) : LogState :=
  tokens.reverse.foldl resetVar s

/-! ## Concrete stores for witnesses and counterexamples -/

/-- One-user store: `u1` with a profile name and city and no sessions. -/
def dbAlice : DB := ⟨[⟨"u1", some "Alice", some "Lahore", 0, 0⟩], [], []⟩

/-- The empty store. -/
def dbEmpty : DB := ⟨[], [], []⟩

/-- Store holding one user, two sessions (ids 7 and 9) and three messages,
two of them belonging to session 7. -/
def dbSess : DB :=
  ⟨[⟨"u1", some "Alice", some "Lahore", 0, 2⟩],
   [⟨7, "u1", none, none, SessionStatus.ACTIVE, 2, 0⟩,
    ⟨9, "u1", none, none, SessionStatus.ACTIVE, 1, 0⟩],
   [⟨1, 7, "user", "hi", 0⟩, ⟨2, 7, "assistant", "hello", 1⟩,
    ⟨3, 9, "user", "yo", 2⟩]⟩

/-- One-user store for the update-frame witness. -/
def dbUpd : DB := ⟨[⟨"u1", some "A", some "B", 3, 2⟩], [], []⟩

/-! ## Retry lemmas -/

lemma retryFixed_all_fail (outcome : Nat → Bool) (delay : Nat) :
    ∀ n i, 0 < n → (∀ j, j < n → outcome (i + j) = false) →
      retryFixed outcome delay i n = ⟨n, List.replicate (n - 1) delay, false⟩ := by
  intro n
  induction n with
  | zero => intro i h; omega
  | succ m ih =>
      intro i _ hfail
      have h0 : outcome i = false := by simpa using hfail 0 (by omega)
      cases m with
      | zero => simp [retryFixed, h0]
      | succ k =>
          have hrec := ih (i + 1) (by omega)
            (fun j hj => by
              have := hfail (j + 1) (by omega)
              simpa [Nat.add_assoc, Nat.add_comm 1 j] using this)
          have hstep : retryFixed outcome delay i (k + 1 + 1) =
              ⟨(retryFixed outcome delay (i + 1) (k + 1)).attempts + 1,
               delay :: (retryFixed outcome delay (i + 1) (k + 1)).sleeps,
               (retryFixed outcome delay (i + 1) (k + 1)).success⟩ := by
            rw [retryFixed]
            simp [h0]
          rw [hstep, hrec]
          simp [List.replicate_succ]

lemma retryFixed_first_success (outcome : Nat → Bool) (delay : Nat) :
    ∀ k n i, k < n → (∀ j, j < k → outcome (i + j) = false) →
      outcome (i + k) = true →
      retryFixed outcome delay i n = ⟨k + 1, List.replicate k delay, true⟩ := by
  intro k
  induction k with
  | zero =>
      intro n i hn _ hsucc
      cases n with
      | zero => omega
      | succ m => simp [retryFixed, show outcome i = true by simpa using hsucc]
  | succ p ih =>
      intro n i hn hfail hsucc
      cases n with
      | zero => omega
      | succ m =>
          have h0 : outcome i = false := by simpa using hfail 0 (by omega)
          have hm : ¬ (m = 0) := by omega
          have hrec := ih m (i + 1) (by omega)
            (fun j hj => by
              have := hfail (j + 1) (by omega)
              simpa [Nat.add_assoc, Nat.add_comm 1 j] using this)
            (by
              have h' : i + 1 + p = i + (p + 1) := by omega
              rw [h']; exact hsucc)
          cases m with
          | zero => omega
          | succ q =>
              have hstep : retryFixed outcome delay i (q + 1 + 1) =
                  ⟨(retryFixed outcome delay (i + 1) (q + 1)).attempts + 1,
                   delay :: (retryFixed outcome delay (i + 1) (q + 1)).sleeps,
                   (retryFixed outcome delay (i + 1) (q + 1)).success⟩ := by
                rw [retryFixed]
                simp [h0]
              rw [hstep, hrec]
              simp [List.replicate_succ]

/-! ## List helper lemmas for the store operations -/

lemma modifyFirst_cons {α} (p : α → Bool) (f : α → α) (x : α) (xs : List α) :
    modifyFirst p f (x :: xs) =
      if p x then f x :: xs else x :: modifyFirst p f xs := rfl

lemma removeFirst_cons {α} (p : α → Bool) (x : α) (xs : List α) :
    removeFirst p (x :: xs) = if p x then xs else x :: removeFirst p xs := rfl

lemma find?_append_of_none {α} (p : α → Bool) (l₁ l₂ : List α)
    (h : l₁.find? p = none) : (l₁ ++ l₂).find? p = l₂.find? p := by
  induction l₁ with
  | nil => rfl
  | cons x xs ih =>
      by_cases hx : p x
      · rw [List.find?_cons_of_pos _ hx] at h
        exact absurd h (by simp)
      · rw [List.find?_cons_of_neg _ hx] at h
        rw [List.cons_append, List.find?_cons_of_neg _ hx]
        exact ih h

lemma modifyFirst_append_of_none {α} (p : α → Bool) (f : α → α)
    (l₁ l₂ : List α) (h : l₁.find? p = none) :
    modifyFirst p f (l₁ ++ l₂) = l₁ ++ modifyFirst p f l₂ := by
  induction l₁ with
  | nil => rfl
  | cons x xs ih =>
      by_cases hx : p x
      · rw [List.find?_cons_of_pos _ hx] at h
        exact absurd h (by simp)
      · rw [List.find?_cons_of_neg _ hx] at h
        rw [List.cons_append, modifyFirst_cons, if_neg hx, ih h,
          List.cons_append]

lemma find?_modifyFirst {α} (p : α → Bool) (f : α → α) (l : List α)
    (hf : ∀ a, p a = true → p (f a) = true) :
    (modifyFirst p f l).find? p = (l.find? p).map f := by
  induction l with
  | nil => rfl
  | cons x xs ih =>
      by_cases hx : p x
      · rw [modifyFirst_cons, if_pos hx, List.find?_cons_of_pos _ (hf x hx),
          List.find?_cons_of_pos _ hx]
        rfl
      · rw [modifyFirst_cons, if_neg hx, List.find?_cons_of_neg _ hx,
          List.find?_cons_of_neg _ hx]
        exact ih

lemma modifyFirst_const_of_find? {α} (p : α → Bool) (a : α) (l : List α)
    (h : l.find? p = some a) : modifyFirst p (fun _ => a) l = l := by
  induction l with
  | nil => exact absurd h (by simp)
  | cons x xs ih =>
      by_cases hx : p x
      · rw [List.find?_cons_of_pos _ hx] at h
        have hxa : x = a := by injection h
        rw [modifyFirst_cons, if_pos hx, hxa]
      · rw [List.find?_cons_of_neg _ hx] at h
        rw [modifyFirst_cons, if_neg hx, ih h]

lemma filter_eq_nil_of_find?_none {α} (p : α → Bool) (l : List α)
    (h : l.find? p = none) : l.filter p = [] := by
  induction l with
  | nil => rfl
  | cons x xs ih =>
      by_cases hx : p x
      · rw [List.find?_cons_of_pos _ hx] at h
        exact absurd h (by simp)
      · rw [List.find?_cons_of_neg _ hx] at h
        rw [List.filter_cons, if_neg hx]
        exact ih h

lemma find?_eq_none_of_filter_nil {α} (p : α → Bool) (l : List α)
    (h : l.filter p = []) : l.find? p = none := by
  induction l with
  | nil => rfl
  | cons x xs ih =>
      by_cases hx : p x
      · rw [List.filter_cons, if_pos hx] at h
        exact absurd h (by simp)
      · rw [List.filter_cons, if_neg hx] at h
        rw [List.find?_cons_of_neg _ hx]
        exact ih h

lemma length_filter_modifyFirst {α} (p : α → Bool) (f : α → α) (l : List α)
    (hf : ∀ a, p a = true → p (f a) = true) :
    ((modifyFirst p f l).filter p).length = (l.filter p).length := by
  induction l with
  | nil => rfl
  | cons x xs ih =>
      by_cases hx : p x
      · rw [modifyFirst_cons, if_pos hx, List.filter_cons, if_pos (hf x hx),
          List.filter_cons, if_pos hx, List.length_cons, List.length_cons]
      · rw [modifyFirst_cons, if_neg hx, List.filter_cons, if_neg hx,
          List.filter_cons, if_neg hx]
        exact ih

lemma find?_removeFirst_of_count_le_one {α} (p : α → Bool) (l : List α)
    (h : (l.filter p).length ≤ 1) :
    (removeFirst p l).find? p = none := by
  induction l with
  | nil => rfl
  | cons x xs ih =>
      by_cases hx : p x
      · rw [List.filter_cons, if_pos hx] at h
        have hnil : xs.filter p = [] := by
          cases hxs : xs.filter p with
          | nil => rfl
          | cons y ys => rw [hxs, List.length_cons, List.length_cons] at h; omega
        rw [removeFirst_cons, if_pos hx]
        exact find?_eq_none_of_filter_nil p xs hnil
      · rw [List.filter_cons, if_neg hx] at h
        rw [removeFirst_cons, if_neg hx, List.find?_cons_of_neg _ hx]
        exact ih h

lemma all_filter_self {α} (p : α → Bool) (l : List α) :
    (l.filter p).all p = true := by
  induction l with
  | nil => rfl
  | cons x xs ih =>
      by_cases hx : p x
      · rw [List.filter_cons, if_pos hx, List.all_cons, hx, Bool.true_and]
        exact ih
      · rw [List.filter_cons, if_neg hx]
        exact ih

/-! ## Run lemmas for `create_session` -/

lemma create_session_of_found (db : DB) (uid : String) (sid : Option Nat)
    (uname loc : Option String) (u : User) (h : dbGetUser db uid = some u) :
    ∃ sidv : Nat,
      create_session db uid sid uname loc =
        (Except.ok ⟨sidv, uid, pyOrStr uname u.name, pyOrStr loc u.city,
            SessionStatus.ACTIVE, 0, 0⟩,
         ⟨modifyFirst (fun v => v.user_id == uid)
            (fun v => { v with session_count := v.session_count + 1 }) db.users,
          db.sessions ++ [⟨sidv, uid, pyOrStr uname u.name, pyOrStr loc u.city,
            SessionStatus.ACTIVE, 0, 0⟩],
          db.messages⟩) := by
  have hfind : db.users.find? (fun v => v.user_id == uid) = some u := h
  have happ : applyUserUpdate u none none = u := rfl
  have hmod : modifyFirst (fun v => v.user_id == uid) (fun _ => u) db.users =
      db.users := modifyFirst_const_of_find? _ u db.users hfind
  have hg : get_or_create_user db uid none none = (Except.ok u, db) := by
    unfold get_or_create_user
    rw [h]
    dsimp only
    rw [happ, hmod]
  refine ⟨(match sid with
    | some i => i
    | none => fresh_session_id db), ?_⟩
  unfold create_session
  rw [hg]
  dsimp only
  have hinc : increment_session_count
      ⟨db.users,
       db.sessions ++ [(⟨(match sid with
          | some i => i
          | none => fresh_session_id db), uid, pyOrStr uname u.name,
          pyOrStr loc u.city, SessionStatus.ACTIVE, 0, 0⟩ : ChatSession)],
       db.messages⟩ uid =
      (Except.ok (),
       ⟨modifyFirst (fun v => v.user_id == uid)
          (fun v => { v with session_count := v.session_count + 1 }) db.users,
        db.sessions ++ [(⟨(match sid with
          | some i => i
          | none => fresh_session_id db), uid, pyOrStr uname u.name,
          pyOrStr loc u.city, SessionStatus.ACTIVE, 0, 0⟩ : ChatSession)],
        db.messages⟩) := by
    unfold increment_session_count dbGetUser
    dsimp only
    rw [hfind]
  rw [hinc]

lemma create_session_of_none (db : DB) (uid : String) (sid : Option Nat)
    (uname loc : Option String) (h : dbGetUser db uid = none) :
    ∃ sidv : Nat,
      create_session db uid sid uname loc =
        (Except.ok ⟨sidv, uid, pyOrStr uname none, pyOrStr loc none,
            SessionStatus.ACTIVE, 0, 0⟩,
         ⟨db.users ++ [⟨uid, none, none, 0, 1⟩],
          db.sessions ++ [⟨sidv, uid, pyOrStr uname none, pyOrStr loc none,
            SessionStatus.ACTIVE, 0, 0⟩],
          db.messages⟩) := by
  have hfind : db.users.find? (fun v => v.user_id == uid) = none := h
  have hex : user_exists db uid = false := by
    unfold user_exists
    rw [hfind]
    rfl
  have hg : get_or_create_user db uid none none =
      (Except.ok ⟨uid, none, none, 0, 0⟩,
       ⟨db.users ++ [⟨uid, none, none, 0, 0⟩], db.sessions, db.messages⟩) := by
    unfold get_or_create_user
    rw [h]
    dsimp only
    unfold create_user
    rw [hex]
    simp
  refine ⟨(match sid with
    | some i => i
    | none => fresh_session_id db), ?_⟩
  unfold create_session
  rw [hg]
  dsimp only
  have hfresh : fresh_session_id
      ⟨db.users ++ [⟨uid, none, none, 0, 0⟩], db.sessions, db.messages⟩ =
      fresh_session_id db := rfl
  rw [hfresh]
  have hfindApp : ((db.users ++ [⟨uid, none, none, 0, 0⟩] : List User).find?
      (fun v => v.user_id == uid)) = some ⟨uid, none, none, 0, 0⟩ := by
    rw [find?_append_of_none _ _ _ hfind]
    simp
  have hmodApp : modifyFirst (fun v => v.user_id == uid)
      (fun v => { v with session_count := v.session_count + 1 })
      (db.users ++ [⟨uid, none, none, 0, 0⟩]) =
      db.users ++ [⟨uid, none, none, 0, 1⟩] := by
    rw [modifyFirst_append_of_none _ _ _ _ hfind, modifyFirst_cons]
    simp
  have hinc : increment_session_count
      ⟨db.users ++ [⟨uid, none, none, 0, 0⟩],
       db.sessions ++ [(⟨(match sid with
          | some i => i
          | none => fresh_session_id db), uid, pyOrStr uname none,
          pyOrStr loc none, SessionStatus.ACTIVE, 0, 0⟩ : ChatSession)],
       db.messages⟩ uid =
      (Except.ok (),
       ⟨db.users ++ [⟨uid, none, none, 0, 1⟩],
        db.sessions ++ [(⟨(match sid with
          | some i => i
          | none => fresh_session_id db), uid, pyOrStr uname none,
          pyOrStr loc none, SessionStatus.ACTIVE, 0, 0⟩ : ChatSession)],
        db.messages⟩) := by
    unfold increment_session_count dbGetUser
    dsimp only
    rw [hfindApp]
    dsimp only
    rw [hmodApp]
  rw [hinc]

/-! ## Claim theorems -/

/-- Claim C1: for every chat request the generator emits exactly one
`session_created` event first, then one `token` event per chat-service token
in order, and then one terminal event which is either `done` or `error`; no
event follows the terminal event. -/
theorem chat_stream_event_order (session_id : String) (tokens : List String)
    (exc : Option String) :
    ∃ term : SSEEvent,
      (event_generator session_id tokens exc).1 =
        SSEEvent.session_created session_id ::
          (tokens.map SSEEvent.token ++ [term]) ∧
      (term = SSEEvent.done session_id ∨
        ∃ m : String, term = SSEEvent.error m) := by
  cases exc with
  | none =>
      exact ⟨SSEEvent.done session_id, by simp [event_generator, tryBody],
        Or.inl rfl⟩
  | some msg =>
      exact ⟨SSEEvent.error msg, by simp [event_generator, tryBody],
        Or.inr ⟨msg, rfl⟩⟩

/-- Claim C2: whenever the chat service raises an exception with message
`msg` while the stream is being produced, the generator emits exactly one
`error` event, that event carries `msg`, it is the last event, and no
exception is re-raised to the transport layer. -/
theorem chat_stream_error_absorbed (session_id : String) (tokens : List String)
    (msg : String) :
    (event_generator session_id tokens (some msg)).2 = none ∧
    (event_generator session_id tokens (some msg)).1 =
      SSEEvent.session_created session_id ::
        tokens.map SSEEvent.token ++ [SSEEvent.error msg] ∧
    ((event_generator session_id tokens (some msg)).1.filter
        (fun e => match e with
          | SSEEvent.error _ => true
          | _ => false)) = [SSEEvent.error msg] := by
  refine ⟨rfl, by simp [event_generator, tryBody], ?_⟩
  simp [event_generator, tryBody, List.filter_append, List.filter_map]

/-- Claim C3: if every database connection attempt fails, `verify_connection`
makes exactly 5 attempts separated by fixed 2-second sleeps (4 sleeps of 2
seconds each) and `init_db` then aborts startup with a fatal `RuntimeError`;
if the first success is among the 5 attempts, no attempt is made after it
and startup proceeds. -/
theorem startup_retry_discipline (outcome : Nat → Bool) :
    ((∀ i, i < 5 → outcome i = false) →
      verify_connection outcome = ⟨5, List.replicate 4 2, false⟩ ∧
      init_db (Except.ok ()) outcome =
        Except.error (StartupFailure.runtimeError "Database unavailable: connection retry exhausted")) ∧
    (∀ k, k < 5 → (∀ j, j < k → outcome j = false) → outcome k = true →
      verify_connection outcome = ⟨k + 1, List.replicate k 2, true⟩ ∧
      init_db (Except.ok ()) outcome = Except.ok ()) := by
  constructor
  · intro hfail
    have h := retryFixed_all_fail outcome 2 5 0 (by omega)
      (fun j hj => by simpa using hfail j hj)
    refine ⟨h, ?_⟩
    simp [init_db, verify_connection] at h ⊢
    rw [h]
  · intro k hk hfail hsucc
    have h := retryFixed_first_success outcome 2 k 5 0 hk
      (fun j hj => by simpa using hfail j hj) (by simpa using hsucc)
    refine ⟨h, ?_⟩
    simp [init_db, verify_connection] at h ⊢
    rw [h]

/-- Concrete witness for C3: with all attempts failing, 5 attempts and 4
sleeps of 2 seconds happen and startup aborts; with the third attempt
succeeding, 3 attempts and 2 sleeps happen and startup proceeds. -/
theorem startup_retry_discipline_witness :
    (verify_connection (fun _ => false) = ⟨5, List.replicate 4 2, false⟩ ∧
      init_db (Except.ok ()) (fun _ => false) =
        Except.error (StartupFailure.runtimeError "Database unavailable: connection retry exhausted")) ∧
    (verify_connection (fun j => j == 2) = ⟨3, List.replicate 2 2, true⟩ ∧
      init_db (Except.ok ()) (fun j => j == 2) = Except.ok ()) :=
  ⟨(startup_retry_discipline (fun _ => false)).1 (fun _ _ => rfl),
   (startup_retry_discipline (fun j => j == 2)).2 2 (by omega)
     (by decide) (by decide)⟩

/-- Claim C4: `create_session` always succeeds; when the user does not yet
exist it first creates exactly one `User` row (whose session count then
reads 1: the fresh row incremented exactly once), and when the user exists
it adds no second row and increments the stored session count by exactly
one. -/
theorem create_session_user_row_count (db : DB) (uid : String)
    (sid : Option Nat) (uname loc : Option String) :
    (create_session db uid sid uname loc).1.isOk = true ∧
    (user_exists db uid = true →
      userRowCount (create_session db uid sid uname loc).2 uid =
        userRowCount db uid ∧
      sessionCountOf (create_session db uid sid uname loc).2 uid =
        (sessionCountOf db uid).map (fun n => n + 1)) ∧
    (user_exists db uid = false →
      userRowCount (create_session db uid sid uname loc).2 uid = 1 ∧
      sessionCountOf (create_session db uid sid uname loc).2 uid = some 1) := by
  have hpres : ∀ a : User, ((fun v => v.user_id == uid) a = true) →
      ((fun v => v.user_id == uid)
        ({ a with session_count := a.session_count + 1 }) = true) :=
    fun a ha => ha
  cases hu : dbGetUser db uid with
  | some u =>
      obtain ⟨sidv, heq⟩ := create_session_of_found db uid sid uname loc u hu
      have hfind : db.users.find? (fun v => v.user_id == uid) = some u := hu
      have hex : user_exists db uid = true := by
        unfold user_exists
        rw [hfind]
        rfl
      refine ⟨by rw [heq]; rfl, fun _ => ?_,
        fun hfalse => absurd hex (by rw [hfalse]; simp)⟩
      constructor
      · rw [heq]
        unfold userRowCount
        dsimp only
        exact length_filter_modifyFirst _ _ _ hpres
      · rw [heq]
        unfold sessionCountOf dbGetUser
        dsimp only
        rw [find?_modifyFirst _ _ _ hpres, hfind]
        rfl
  | none =>
      obtain ⟨sidv, heq⟩ := create_session_of_none db uid sid uname loc hu
      have hfind : db.users.find? (fun v => v.user_id == uid) = none := hu
      have hex : user_exists db uid = false := by
        unfold user_exists
        rw [hfind]
        rfl
      refine ⟨by rw [heq]; rfl,
        fun htrue => absurd hex (by rw [htrue]; simp), fun _ => ?_⟩
      constructor
      · rw [heq]
        unfold userRowCount
        dsimp only
        rw [List.filter_append, filter_eq_nil_of_find?_none _ _ hfind]
        simp
      · rw [heq]
        unfold sessionCountOf dbGetUser
        dsimp only
        rw [find?_append_of_none _ _ _ hfind]
        simp

/-- Concrete witness for C4: creating a session for the existing user `u1`
keeps one row and bumps its count from 0 to 1; creating one for the unknown
user `u9` in the empty store leaves exactly one row with count 1. -/
theorem create_session_user_row_count_witness :
    (userRowCount (create_session dbAlice "u1" none none none).2 "u1" =
        userRowCount dbAlice "u1" ∧
      sessionCountOf (create_session dbAlice "u1" none none none).2 "u1" =
        (sessionCountOf dbAlice "u1").map (fun n => n + 1)) ∧
    (userRowCount (create_session dbEmpty "u9" none none none).2 "u9" = 1 ∧
      sessionCountOf (create_session dbEmpty "u9" none none none).2 "u9" =
        some 1) :=
  ⟨(create_session_user_row_count dbAlice "u1" none none none).2.1 (by rfl),
   (create_session_user_row_count dbEmpty "u9" none none none).2.2 (by rfl)⟩

/-- Counterexample to claim C5 as stated: user `u1` has profile name
`Alice`; `create_session` is called with the supplied (non-`None`) display
name `""`, yet the created session's display name is `Alice`, not the
supplied value — Python's `or` treats the supplied empty string as absent. -/
theorem create_session_fallback_cex :
    (create_session dbAlice "u1" none (some "") none).1 =
      Except.ok ⟨0, "u1", some "Alice", some "Lahore",
        SessionStatus.ACTIVE, 0, 0⟩ ∧
    ¬ ((some "Alice" : Option String) = some "") :=
  ⟨rfl, by decide⟩

/-- Amended claim C5: the created session's display name is the supplied
`user_name` when that is provided and non-empty (truthy), and otherwise the
owning user's profile name (`none` when the user record is created on the
fly); likewise the location falls back to the profile city — the Python
`or` fallback `pyOrStr`. -/
theorem create_session_fallback_amended (db : DB) (uid : String)
    (sid : Option Nat) (uname loc : Option String) :
    ∃ s db', create_session db uid sid uname loc = (Except.ok s, db') ∧
      s.user_name = pyOrStr uname ((dbGetUser db uid).bind User.name) ∧
      s.location = pyOrStr loc ((dbGetUser db uid).bind User.city) := by
  cases hu : dbGetUser db uid with
  | some u =>
      obtain ⟨sidv, heq⟩ := create_session_of_found db uid sid uname loc u hu
      exact ⟨_, _, heq, rfl, rfl⟩
  | none =>
      obtain ⟨sidv, heq⟩ := create_session_of_none db uid sid uname loc hu
      exact ⟨_, _, heq, rfl, rfl⟩

/-- Claim C6: `create_user` raises the 409 duplicate-creation exception if
and only if the user id already exists, leaving the store unchanged on
error; otherwise it appends exactly one new row with the given id, name and
city. -/
theorem create_user_conflict (db : DB) (uid : String)
    (name city : Option String) :
    (user_exists db uid = true →
      create_user db uid name city =
        (Except.error (Exc.userAlreadyExists uid), db) ∧
      (Exc.userAlreadyExists uid).status_code = 409) ∧
    (user_exists db uid = false →
      create_user db uid name city =
        (Except.ok ⟨uid, name, city, 0, 0⟩,
         ⟨db.users ++ [⟨uid, name, city, 0, 0⟩], db.sessions,
          db.messages⟩)) := by
  constructor
  · intro h
    refine ⟨?_, rfl⟩
    unfold create_user
    rw [h]
    simp
  · intro h
    unfold create_user
    rw [h]
    simp

/-- Concrete witness for C6: creating `u1` again in the one-user store is
refused with the 409 exception and the store is unchanged; creating `u2` in
the empty store appends exactly that row. -/
theorem create_user_conflict_witness :
    (create_user dbAlice "u1" none none =
        (Except.error (Exc.userAlreadyExists "u1"), dbAlice) ∧
      (Exc.userAlreadyExists "u1").status_code = 409) ∧
    create_user dbEmpty "u2" (some "Bob") none =
      (Except.ok ⟨"u2", some "Bob", none, 0, 0⟩,
       ⟨[⟨"u2", some "Bob", none, 0, 0⟩], [], []⟩) :=
  ⟨(create_user_conflict dbAlice "u1" none none).1 (by rfl),
   (create_user_conflict dbEmpty "u2" (some "Bob") none).2 (by rfl)⟩

/-- Claim C7: (spec-modelled, `chat_service.py` not under `src/`) for a
session with `N` persisted prior turns, the context builder returns the
`min N w` most recent prior turns — a suffix of the chronological list,
hence oldest first — followed by the new user message; the configured
window size defaults to 10. -/
theorem context_window_bound (prior : List Message) (new_message : Message)
    (w : Nat) :
    build_context prior new_message w =
      prior.drop (prior.length - w) ++ [new_message] ∧
    (prior.drop (prior.length - w)).length = min prior.length w ∧
    List.IsSuffix (prior.drop (prior.length - w)) prior ∧
    context_window_size_default = 10 := by
  refine ⟨rfl, ?_,
    ⟨prior.take (prior.length - w), List.take_append_drop _ _⟩, rfl⟩
  rw [List.length_drop]
  omega

/-- Claim C8: deleting an existing session (here under the primary-key
uniqueness invariant on session ids) succeeds, makes a subsequent
`get_session` raise `SessionNotFoundException`, removes every turn of that
session, and leaves the user table — session counts included — entirely
unchanged. -/
theorem delete_session_scoped (db : DB) (sid : Nat) (s : ChatSession)
    (h : db.sessions.find? (fun t => t.id == sid) = some s)
    (hnd : (db.sessions.filter (fun t => t.id == sid)).length ≤ 1) :
    (delete_session db sid).1 = Except.ok () ∧
    (get_session (delete_session db sid).2 sid).1 =
      Except.error (Exc.sessionNotFound (toString sid)) ∧
    (delete_session db sid).2.users = db.users ∧
    (delete_session db sid).2.messages.all
      (fun m => !(m.session_id == sid)) = true := by
  have hdel : delete_session db sid =
      (Except.ok (),
       ⟨db.users, removeFirst (fun t => t.id == sid) db.sessions,
        db.messages.filter (fun m => !(m.session_id == sid))⟩) := by
    unfold delete_session get_session
    rw [h]
  refine ⟨by rw [hdel], ?_, by rw [hdel], ?_⟩
  · rw [hdel]
    unfold get_session
    dsimp only
    rw [find?_removeFirst_of_count_le_one _ _ hnd]
  · rw [hdel]
    exact all_filter_self _ _

/-- Concrete witness for C8: deleting session 7 from `dbSess` succeeds,
`get_session 7` afterwards reports not-found, the user row (count 2) is
untouched and no message of session 7 survives. -/
theorem delete_session_scoped_witness :
    (delete_session dbSess 7).1 = Except.ok () ∧
    (get_session (delete_session dbSess 7).2 7).1 =
      Except.error (Exc.sessionNotFound (toString 7)) ∧
    (delete_session dbSess 7).2.users = dbSess.users ∧
    (delete_session dbSess 7).2.messages.all
      (fun m => !(m.session_id == 7)) = true :=
  delete_session_scoped dbSess 7
    ⟨7, "u1", none, none, SessionStatus.ACTIVE, 2, 0⟩ (by rfl) (by decide)

/-- Claim C9: entering and exiting `LogContext` is a round trip on the
three logging context variables: whatever values they held before entry,
they hold again after exit, on every exit path (the exception information
passed to `__exit__` is ignored). -/
theorem log_context_round_trip (s0 : LogState)
    (request_id session_id user_id exc_info : Option String) :
    logContextExit (logContextEnter s0 request_id session_id user_id).1
      (logContextEnter s0 request_id session_id user_id).2 exc_info = s0 := by
  cases s0 with
  | mk r s u =>
      unfold logContextEnter logContextExit
      by_cases h1 : truthy request_id = true <;>
        by_cases h2 : truthy session_id = true <;>
          by_cases h3 : truthy user_id = true <;>
            simp [h1, h2, h3, setVar, resetVar, writeVar, getVar]

/-- Claim C10: for an existing user, `update_user` changes only the fields
passed with a non-`None` value; a `None` field keeps its previous value (a
stored name or city can never be cleared back to `None`), and `user_id`,
`created_at` and `session_count` are unchanged. -/
theorem update_user_frame (db : DB) (uid : String) (name city : Option String)
    (u : User) (h : dbGetUser db uid = some u) :
    update_user db uid name city =
      (Except.ok (applyUserUpdate u name city),
       ⟨modifyFirst (fun v => v.user_id == uid)
          (fun _ => applyUserUpdate u name city) db.users,
        db.sessions, db.messages⟩) ∧
    (applyUserUpdate u name city).user_id = u.user_id ∧
    (applyUserUpdate u name city).created_at = u.created_at ∧
    (applyUserUpdate u name city).session_count = u.session_count ∧
    (name = none → (applyUserUpdate u name city).name = u.name) ∧
    (city = none → (applyUserUpdate u name city).city = u.city) ∧
    (∀ s : String, name = some s → (applyUserUpdate u name city).name = some s) ∧
    (∀ s : String, city = some s → (applyUserUpdate u name city).city = some s) ∧
    (u.name.isSome = true → (applyUserUpdate u name city).name.isSome = true) ∧
    (u.city.isSome = true → (applyUserUpdate u name city).city.isSome = true) := by
  refine ⟨?_, ?_, ?_, ?_, ?_, ?_, ?_, ?_, ?_, ?_⟩
  · unfold update_user
    rw [h]
  all_goals cases name <;> cases city <;> simp [applyUserUpdate]

/-- Concrete witness for C10: updating `u1` with a `None` name and city
`C` keeps the name `A`, the timestamp 3 and the count 2, and writes only
the city. -/
theorem update_user_frame_witness :
    update_user dbUpd "u1" none (some "C") =
      (Except.ok ⟨"u1", some "A", some "C", 3, 2⟩,
       ⟨[⟨"u1", some "A", some "C", 3, 2⟩], [], []⟩) :=
  (update_user_frame dbUpd "u1" none (some "C")
    ⟨"u1", some "A", some "B", 3, 2⟩ (by rfl)).1

end Chezious
